import Mathlib

/-!
Shallow embedding of the nuisance-regression utilities of `CPAC/nuisance/utils.py`
(`find_offending_time_points`, `create_temporal_variance_mask`,
`generate_summarize_tissue_mask`, `summarize_timeseries`, `NuisanceRegressor.__repr__`),
together with theorems settling the specification claims about them.

Modelling conventions:
* Python floats are modelled as rationals (`ℚ`); file contents are passed as values
  (a lookup function stands for the file system, `os.path.isfile` + `np.loadtxt`).
* Python `raise ValueError(msg)` is modelled as `Except.error msg`.
* A comparison `x > mean + k * std` (where `std` is an irrational square root) is
  modelled by the exact rational test `gtMeanKStd`, proved below to agree with the
  real-number comparison (`gtMeanKStd_iff`).
-/

namespace CPACNuis

/-- Python truthiness of an optional string argument (`None` and `""` are falsy). -/
def truthyStr : Option String → Bool
  | Option.none => false
  | Option.some s => s ≠ ""

/-- Threshold parameter as received by the Python functions: `None`, a number,
or a string such as `"1.5 SD"`. -/
inductive PyThresh where
  | pynone : PyThresh
  | num : ℚ → PyThresh
  | str : String → PyThresh
deriving DecidableEq

/-- Python truthiness of a threshold parameter: `None`, `0` and `""` are falsy. -/
def truthyThresh : PyThresh → Bool
  | PyThresh.pynone => false
  | PyThresh.num q => q ≠ 0
  | PyThresh.str s => s ≠ ""

/-- Arithmetic mean of a list of rationals (`np.mean`; `0` on the empty list,
which the source never hits on the paths proved about). -/
def qmean (xs : List ℚ) : ℚ := xs.sum / xs.length

/-- Population variance (`np.var`, `ddof=0`). -/
def popVar (xs : List ℚ) : ℚ := ((xs.map (fun x => (x - qmean xs) ^ 2)).sum) / xs.length

/-- Exact rational test for `x > m + k * sqrt v` (with `v ≥ 0`), used to embed
comparisons against `mean + k * std` without leaving `ℚ`.  `gtMeanKStd_iff`
below proves it equivalent to the real-number comparison. -/
def gtMeanKStd (x m k v : ℚ) : Bool :=
  let d := x - m
  if 0 ≤ k then decide (0 < d ∧ k ^ 2 * v < d ^ 2)
  else decide (0 < d ∨ (d ≤ 0 ∧ d ^ 2 < k ^ 2 * v))

/-- Correctness of the exact rational comparison `gtMeanKStd`: for a nonnegative
variance it decides the real-number comparison `x > mean + k * std`. -/
theorem gtMeanKStd_iff (x m k v : ℚ) (hv : (0 : ℚ) ≤ v) :
    gtMeanKStd x m k v = true ↔
      (m : ℝ) + (k : ℝ) * Real.sqrt (v : ℝ) < (x : ℝ) := by
  have hv' : (0 : ℝ) ≤ (v : ℝ) := by exact_mod_cast hv
  have hsn : (0 : ℝ) ≤ Real.sqrt (v : ℝ) := Real.sqrt_nonneg _
  have hsq : Real.sqrt (v : ℝ) ^ 2 = (v : ℝ) := Real.sq_sqrt hv'
  unfold gtMeanKStd
  by_cases hk : (0 : ℚ) ≤ k
  · have hk' : (0 : ℝ) ≤ (k : ℝ) := by exact_mod_cast hk
    have hks : (0 : ℝ) ≤ (k : ℝ) * Real.sqrt (v : ℝ) := mul_nonneg hk' hsn
    simp only [if_pos hk, decide_eq_true_eq]
    constructor
    · rintro ⟨hd, hlt⟩
      have hd' : (0 : ℝ) < (x : ℝ) - (m : ℝ) := by
        have := (Rat.cast_lt (K := ℝ)).2 hd
        push_cast at this; linarith
      have hlt' : ((k : ℝ) * Real.sqrt (v : ℝ)) ^ 2 < ((x : ℝ) - (m : ℝ)) ^ 2 := by
        have := (Rat.cast_lt (K := ℝ)).2 hlt
        push_cast at this
        rw [mul_pow, hsq]; linarith
      nlinarith [hlt', hd', hks]
    · intro h
      have hks' : (k : ℝ) * Real.sqrt (v : ℝ) < (x : ℝ) - (m : ℝ) := by linarith
      have hd' : (0 : ℝ) < (x : ℝ) - (m : ℝ) := lt_of_le_of_lt hks hks'
      have hsq' : ((k : ℝ) * Real.sqrt (v : ℝ)) ^ 2 < ((x : ℝ) - (m : ℝ)) ^ 2 :=
        pow_lt_pow_left₀ hks' hks (by norm_num)
      constructor
      · exact_mod_cast (by push_cast; linarith : ((0 : ℚ) : ℝ) < ((x - m : ℚ) : ℝ))
      · have : (k : ℝ) ^ 2 * (v : ℝ) < ((x : ℝ) - (m : ℝ)) ^ 2 := by
          rw [mul_pow, hsq] at hsq'; linarith
        exact_mod_cast (by push_cast; linarith :
          ((k ^ 2 * v : ℚ) : ℝ) < (((x - m) ^ 2 : ℚ) : ℝ))
  · have hk' : (k : ℝ) ≤ 0 := by
      have : k ≤ 0 := le_of_not_le hk
      exact_mod_cast this
    have hks : (k : ℝ) * Real.sqrt (v : ℝ) ≤ 0 := mul_nonpos_of_nonpos_of_nonneg hk' hsn
    simp only [if_neg hk, decide_eq_true_eq]
    constructor
    · rintro (hd | ⟨hdle, hlt⟩)
      · have hd' : (0 : ℝ) < (x : ℝ) - (m : ℝ) := by
          have := (Rat.cast_lt (K := ℝ)).2 hd
          push_cast at this; linarith
        linarith
      · have hdle' : (x : ℝ) - (m : ℝ) ≤ 0 := by
          have := (Rat.cast_le (K := ℝ)).2 hdle
          push_cast at this; linarith
        have hlt' : ((x : ℝ) - (m : ℝ)) ^ 2 < ((k : ℝ) * Real.sqrt (v : ℝ)) ^ 2 := by
          have := (Rat.cast_lt (K := ℝ)).2 hlt
          push_cast at this
          rw [mul_pow, hsq]; linarith
        nlinarith [hlt', hdle', hks]
    · intro h
      have hks' : (k : ℝ) * Real.sqrt (v : ℝ) < (x : ℝ) - (m : ℝ) := by linarith
      by_cases hd : (0 : ℚ) < x - m
      · exact Or.inl (by linarith [sub_pos.2 (show m < x by linarith [hd])])
      · right
        have hdle : x - m ≤ 0 := le_of_not_lt hd
        have hdle' : (x : ℝ) - (m : ℝ) ≤ 0 := by
          have := (Rat.cast_le (K := ℝ)).2 hdle
          push_cast at this; linarith
        refine ⟨hdle, ?_⟩
        have hsq' : ((x : ℝ) - (m : ℝ)) ^ 2 < ((k : ℝ) * Real.sqrt (v : ℝ)) ^ 2 := by
          have h1 : (0 : ℝ) ≤ -((x : ℝ) - (m : ℝ)) := by linarith
          have h2 : -((x : ℝ) - (m : ℝ)) < -((k : ℝ) * Real.sqrt (v : ℝ)) := by linarith
          have h3 := pow_lt_pow_left₀ h2 h1 (show (2 : ℕ) ≠ 0 by norm_num)
          calc ((x : ℝ) - (m : ℝ)) ^ 2 = (-((x : ℝ) - (m : ℝ))) ^ 2 := by ring
            _ < (-((k : ℝ) * Real.sqrt (v : ℝ))) ^ 2 := h3
            _ = ((k : ℝ) * Real.sqrt (v : ℝ)) ^ 2 := by ring
        have : ((x : ℝ) - (m : ℝ)) ^ 2 < (k : ℝ) ^ 2 * (v : ℝ) := by
          rw [mul_pow, hsq] at hsq'; linarith
        exact_mod_cast (by push_cast; linarith :
          (((x - m) ^ 2 : ℚ) : ℝ) < ((k ^ 2 * v : ℚ) : ℝ))

/-- Numeric value of a digit string (most significant first). -/
def digitsVal (cs : List Char) : ℚ :=
  cs.foldl (fun a c => 10 * a + ((c.toNat - '0'.toNat : ℕ) : ℚ)) 0

/-- Value of a digit string read as the fractional part after a decimal point. -/
def fracVal (cs : List Char) : ℚ :=
  cs.foldr (fun c a => (a + ((c.toNat - '0'.toNat : ℕ) : ℚ)) / 10) 0

/-- Parser for an unsigned decimal literal `digits[.digits]`, `.digits` or `digits.`
(the shapes Python's `float` accepts that arise here; exponents are not modelled,
no claim exercises them). -/
def parseUnsigned (cs : List Char) : Option ℚ :=
  let p1 := cs.span (·.isDigit)
  match p1.2 with
  | [] => if p1.1.isEmpty then Option.none else Option.some (digitsVal p1.1)
  | '.' :: r2 =>
      let p2 := r2.span (·.isDigit)
      if p2.2.isEmpty && !(p1.1.isEmpty && p2.1.isEmpty) then
        Option.some (digitsVal p1.1 + fracVal p2.1)
      else Option.none
  | _ => Option.none

/-- Model of Python's `float(s)` on a string (sign and surrounding spaces allowed,
decimal forms only). -/
def pyFloatOfString (s : String) : Option ℚ :=
  let cs := ((s.toList.dropWhile (·.isWhitespace)).reverse.dropWhile (·.isWhitespace)).reverse
  match cs with
  | '-' :: rest => (parseUnsigned rest).map (fun q => -q)
  | '+' :: rest => parseUnsigned rest
  | _ => parseUnsigned cs

/-- Model of `re.match(r"([0-9]*\.*[0-9]*)\s*SD", s)`, returning the captured
group: greedy digits, then dots, then digits, then whitespace, then the literal
`SD` (anything may follow, as with `re.match`). -/
def matchLooseSD (s : String) : Option String :=
  let q1 := s.toList.span (·.isDigit)
  let q2 := q1.2.span (· = '.')
  let q3 := q2.2.span (·.isDigit)
  let r4 := q3.2.dropWhile (·.isWhitespace)
  if "SD".toList.isPrefixOf r4 then Option.some (String.mk (q1.1 ++ q2.1 ++ q3.1))
  else Option.none

/-- Model of `re.match(r"([0-9]+(\.[0-9]+)?)\s*" + lit, s)`, returning the
captured numeric group. -/
def matchNumThen (lit : String) (s : String) : Option String :=
  let p1 := s.toList.span (·.isDigit)
  if p1.1.isEmpty then Option.none else
  let gr : List Char × List Char :=
    match p1.2 with
    | '.' :: r2 =>
      let p2 := r2.span (·.isDigit)
      if p2.1.isEmpty then (p1.1, p1.2) else (p1.1 ++ '.' :: p2.1, p2.2)
    | _ => (p1.1, p1.2)
  let r4 := gr.2.dropWhile (·.isWhitespace)
  if lit.toList.isPrefixOf r4 then Option.some (String.mk gr.1) else Option.none

/-- A resolved threshold: either a plain value, or `mean + k * std` of a series
whose mean and population variance are recorded (the comparison is done by
`gtMeanKStd`, keeping everything rational). -/
inductive ThreshSpec where
  | plain : ℚ → ThreshSpec
  | meanSd : ℚ → ℚ → ℚ → ThreshSpec
deriving DecidableEq

/-- The source's `series > threshold` comparison against a resolved threshold. -/
def gtThresh (x : ℚ) : ThreshSpec → Bool
  | ThreshSpec.plain t => decide (t < x)
  | ThreshSpec.meanSd m k v => gtMeanKStd x m k v

/-- Threshold resolution of `find_offending_time_points` (source lines 63-75 and
94-106): the loose SD regex is tried on `str(threshold)`; on a match the
threshold becomes `mean + k * std` of the series, otherwise `float(threshold)`.
The `str` of a number never matches the SD regex, so a numeric threshold is
passed through.  Failures reproduce the "Could not translate" `ValueError`. -/
def resolveThreshLoose (series : List ℚ) (t : PyThresh) (tname : String) :
    Except String ThreshSpec :=
  match t with
  | PyThresh.num q => Except.ok (ThreshSpec.plain q)
  | PyThresh.pynone =>
      Except.error ("Could not translate " ++ tname ++ " into a meaningful value")
  | PyThresh.str s =>
      match matchLooseSD s with
      | Option.some grp =>
          match pyFloatOfString grp with
          | Option.some k =>
              Except.ok (ThreshSpec.meanSd (qmean series) k (popVar series))
          | Option.none =>
              Except.error ("Could not translate " ++ tname ++ " into a meaningful value")
      | Option.none =>
          match pyFloatOfString s with
          | Option.some q => Except.ok (ThreshSpec.plain q)
          | Option.none =>
              Except.error ("Could not translate " ++ tname ++ " into a meaningful value")

/-- Indices where the series exceeds the threshold:
`np.where(series > threshold)[0].tolist()`. -/
def offendingIdx (xs : List ℚ) (t : ThreshSpec) : List ℕ :=
  (List.range xs.length).filter (fun i => gtThresh (xs.getD i 0) t)

/-- Censor vector of `find_offending_time_points` (source lines 115-129): each
offending index is widened to the window `[c - nprev, c + nsub]`, out-of-range
indices are dropped, and the all-ones vector of the time-course length is zeroed
on the union of the windows.  (The source's `np.unique` and bound filtering make
the vector insensitive to duplicate or unordered offending indices, which this
membership formulation reproduces.) -/
def censorVector (n : ℕ) (off : List ℕ) (nprev nsub : ℕ) : List ℕ :=
  (List.range n).map (fun i =>
    if off.any (fun c => decide ((c : ℤ) - nprev ≤ i ∧ (i : ℤ) ≤ c + nsub)) then 0 else 1)

/-- Embedding of `find_offending_time_points` (source lines 17-134).  `fs` stands
for the file system: `fs p = some xs` means the single-column TSV at `p` exists
and holds `xs`.  The returned list is the censor vector written to the output
file (one 0/1 entry per timepoint). -/
def find_offending_time_points (fs : String → Option (List ℚ))
    (fd_file_path dvars_file_path : Option String)
    (fd_threshold dvars_threshold : PyThresh)
    (nprev nsub : ℕ) : Except String (List ℕ) := do
  let fdRes ←
    if truthyStr fd_file_path then do
      let p := fd_file_path.getD ""
      match fs p with
      | Option.none =>
          throw ("Framewise displacement file " ++ p ++ " could not be found.")
      | Option.some fd => do
          if truthyThresh fd_threshold = false then
            throw "Method FD requires the specification of a framewise displacement threshold, none received"
          else do
            let thr ← resolveThreshLoose fd fd_threshold "fd_threshold"
            pure (offendingIdx fd thr, fd.length)
    else pure (([] : List ℕ), 0)
  let finalRes ←
    if truthyStr dvars_file_path then do
      let p := dvars_file_path.getD ""
      match fs p with
      | Option.none => throw ("DVARS file " ++ p ++ " could not be found.")
      | Option.some raw => do
          if truthyThresh dvars_threshold = false then
            throw "Method DVARS requires the specification of a DVARS threshold, none received"
          else do
            let dv := 0 :: raw
            let thr ← resolveThreshLoose dv dvars_threshold "dvars_threshold"
            let dOff := offendingIdx dv thr
            pure ((if fdRes.1.isEmpty then dOff
                   else fdRes.1.filter (fun i => dOff.contains i)), dv.length)
    else pure fdRes
  pure (censorVector finalRes.2 finalRes.1 nprev nsub)

/-- Concrete file system for the C1 evaluation: an FD series with no point
above threshold 1, and a DVARS series whose prepended form flags index 1. -/
def fsC1 : String → Option (List ℚ) :=
  fun p =>
    if p = "fd.tsv" then Option.some [0, 0, 0]
    else if p = "dvars.tsv" then Option.some [5, 0] else Option.none

/-- C1: with both series supplied, an empty FD offending set and DVARS offending
set `{1}`, the code censors index 1 (output `[1,0,1]`) instead of the documented
intersection (which is empty, so the output would be `[1,1,1]`): the
`if not offending_time_points` check at source line 108 conflates "FD produced
no offenders" with "FD not supplied", contradicting the docstring's
"intersection of the FD and DVARS criteria". -/
theorem find_offending_empty_fd_intersection_bug :
    offendingIdx [0, 0, 0] (ThreshSpec.plain 1) = [] ∧
    offendingIdx [0, 5, 0] (ThreshSpec.plain 1) = [1] ∧
    find_offending_time_points fsC1 (Option.some "fd.tsv") (Option.some "dvars.tsv")
      (PyThresh.num 1) (PyThresh.num 1) 0 0 = Except.ok [1, 0, 1] ∧
    censorVector 3 [] 0 0 = [1, 1, 1] :=
  ⟨rfl, rfl, rfl, rfl⟩

/-- C10: supplying an FD series together with the numeric threshold `0` (or a
DVARS series with numeric threshold `0`) raises the missing-threshold
configuration error of source lines 55-57 resp. 86-88: Python's `if not
fd_threshold` makes a zero threshold indistinguishable from an absent one. -/
theorem find_offending_zero_threshold_missing_error
    (fs : String → Option (List ℚ)) (p : String) (xs : List ℚ)
    (dpath : Option String) (dthr fthr : PyThresh) (nprev nsub : ℕ)
    (hfs : fs p = Option.some xs) (hp : p ≠ "") :
    find_offending_time_points fs (Option.some p) dpath (PyThresh.num 0) dthr nprev nsub =
      Except.error "Method FD requires the specification of a framewise displacement threshold, none received" ∧
    find_offending_time_points fs Option.none (Option.some p) fthr (PyThresh.num 0) nprev nsub =
      Except.error "Method DVARS requires the specification of a DVARS threshold, none received" := by
  constructor
  · simp [find_offending_time_points, truthyStr, truthyThresh, hfs, hp, Bind.bind,
      Functor.map, Except.bind, Except.map, throw, throwThe, MonadExceptOf.throw, pure, Except.pure]
  · simp [find_offending_time_points, truthyStr, truthyThresh, hfs, hp, Bind.bind,
      Functor.map, Except.bind, Except.map, throw, throwThe, MonadExceptOf.throw, pure, Except.pure]

/-- Witness for `find_offending_zero_threshold_missing_error` at a concrete
file system and path. -/
theorem find_offending_zero_threshold_missing_error_witness :
    fsC1 "fd.tsv" = Option.some [0, 0, 0] ∧ "fd.tsv" ≠ "" ∧
    (find_offending_time_points fsC1 (Option.some "fd.tsv") Option.none
      (PyThresh.num 0) PyThresh.pynone 0 0 =
      Except.error "Method FD requires the specification of a framewise displacement threshold, none received") ∧
    (find_offending_time_points fsC1 Option.none (Option.some "fd.tsv")
      PyThresh.pynone (PyThresh.num 0) 0 0 =
      Except.error "Method DVARS requires the specification of a DVARS threshold, none received") :=
  ⟨rfl, by decide,
    (find_offending_zero_threshold_missing_error fsC1 "fd.tsv" [0, 0, 0]
      Option.none PyThresh.pynone PyThresh.pynone 0 0 rfl (by decide)).1,
    (find_offending_zero_threshold_missing_error fsC1 "fd.tsv" [0, 0, 0]
      Option.none PyThresh.pynone PyThresh.pynone 0 0 rfl (by decide)).2⟩

/-- Test of `.endswith(".nii") or .endswith(".nii.gz")` on a path; an empty
(falsy) path fails this test as well, matching `path and path.endswith(...)`. -/
def isNiftiPath (p : String) : Bool := p.endsWith ".nii" || p.endsWith ".nii.gz"

/-- A 4D functional image: spatial dimensions, per-voxel time series in C-order
flattening, number of timepoints, and affine (compared only for equality). -/
structure Func4D where
  d1 : ℕ
  d2 : ℕ
  d3 : ℕ
  voxels : List (List ℚ)
  tdim : ℕ
  affine : List ℚ
deriving DecidableEq

/-- A 3D mask image: spatial dimensions, values in C-order flattening, affine. -/
structure Mask3D where
  d1 : ℕ
  d2 : ℕ
  d3 : ℕ
  vals : List ℚ
  affine : List ℚ
deriving DecidableEq

/-- Model of `np.percentile(xs, q)` with the default linear interpolation:
sort, take position `q * (n-1) / 100`, interpolate between its floor and
ceiling neighbours. -/
def npPercentile (xs : List ℚ) (q : ℚ) : ℚ :=
  let s := xs.mergeSort (fun a b => decide (a ≤ b))
  if s.isEmpty then 0
  else
    let pos : ℚ := q * ((s.length : ℚ) - 1) / 100
    let fr : ℚ := pos - (⌊pos⌋ : ℚ)
    (s.getD ⌊pos⌋.toNat 0) + fr * ((s.getD ⌈pos⌉.toNat 0) - (s.getD ⌊pos⌋.toNat 0))

/-- Thresholding loop of `create_temporal_variance_mask` (source lines 243-289),
phrased per voxel: `vars` is the per-voxel temporal variance, `mdata` the
eligibility mask.  With `by_slice = true` the slices are the residue classes
modulo `d3` (the C-order reshape to `(d1*d2, d3)`); with `by_slice = false`
there is a single slice.  A voxel in a slice with no eligible voxels stays
excluded (the `np.any` guard); otherwise it is included iff it is eligible and
its variance is strictly above the slice threshold — the percentile at
`100 - value` for `"PCT"`, `mean + value * std` for `"SD"`, the raw value
otherwise. -/
def varianceMaskCore (vars : List ℚ) (mdata : List Bool) (method : String)
    (value : ℚ) (by_slice : Bool) (d3 : ℕ) : List Bool :=
  let idx := List.range vars.length
  let sliceIdx : ℕ → ℕ := fun v => if by_slice then v % d3 else 0
  idx.map (fun v =>
    let elig := (idx.filter (fun w => sliceIdx w = sliceIdx v && mdata.getD w false)).map
      (fun w => vars.getD w 0)
    if elig.isEmpty then false
    else
      let thr : ThreshSpec :=
        if method = "PCT" then ThreshSpec.plain (npPercentile elig (100 - value))
        else if method = "SD" then ThreshSpec.meanSd (qmean elig) value (popVar elig)
        else ThreshSpec.plain value
      mdata.getD v false && gtThresh (vars.getD v 0) thr)

/-- Embedding of `create_temporal_variance_mask` (source lines 137-299).  The
image contents are passed alongside their paths (`nb.load` of the given file);
`maskArg = none` models calling with `mask_file_path=None`.  The returned list
is the flattened binary mask that is written out.  Error messages reproduce the
source's `ValueError`s (interpolated arguments elided where they are not fixed
by the checked condition). -/
def create_temporal_variance_mask (functional_file_path : String)
    (functional : Func4D) (maskArg : Option (String × Mask3D))
    (threshold : PyThresh) (by_slice : Bool) : Except String (List Bool) := do
  if isNiftiPath functional_file_path = false then
    throw "Improper functional file specified, should be a 4D nifti file."
  else do
    match maskArg with
    | Option.none =>
        throw "Improper mask file specified (None), should be a 3D nifti file."
    | Option.some (mask_file_path, mask_image) => do
        if isNiftiPath mask_file_path = false then
          throw "Improper mask file specified, should be a 3D nifti file."
        else do
          if truthyThresh threshold = false then
            throw "Threshold must be specified. Received None"
          else do
            let parsed : String × Option ℚ :=
              match threshold with
              | PyThresh.str s =>
                  match matchNumThen "SD" s with
                  | Option.some g => ("SD", pyFloatOfString g)
                  | Option.none =>
                      match matchNumThen "PCT" s with
                      | Option.some g => ("PCT", pyFloatOfString g)
                      | Option.none => ("VAR", pyFloatOfString s)
              | PyThresh.num q => ("VAR", Option.some q)
              | PyThresh.pynone => ("VAR", Option.none)
            match parsed.2 with
            | Option.none =>
                throw "Error converting threshold value to a floating point number."
            | Option.some value => do
                if value < 0 then
                  throw "Threshold value should be positive."
                else do
                  if parsed.1 = "PCT" && 100 ≤ value then
                    throw "Percentile should be less than 100."
                  else do
                    if functional.tdim < 3 then
                      throw "Functional data used to create mask should be 4D and should contain 3 or more time points."
                    else do
                      if (mask_image.d1 = functional.d1 ∧ mask_image.d2 = functional.d2 ∧
                          mask_image.d3 = functional.d3 ∧
                          mask_image.affine = functional.affine : Prop) then
                        pure (varianceMaskCore (functional.voxels.map popVar)
                          (mask_image.vals.map (fun x => decide (x ≠ 0)))
                          parsed.1 value by_slice functional.d3)
                      else
                        throw "Shape and affine of mask image should match those of the functional data"

/-- Element `v` of a map over `List.range`. -/
theorem getD_map_range (n : ℕ) (g : ℕ → α) (v : ℕ) (d : α) :
    ((List.range n).map g).getD v d = if v < n then g v else d := by
  by_cases h : v < n
  · rw [List.getD_eq_getElem?_getD, List.getElem?_map]
    simp [List.getElem?_range h, h]
  · rw [List.getD_eq_getElem?_getD, List.getElem?_map]
    rw [List.getElem?_eq_none (by simpa using le_of_not_lt h)]
    simp [h]

/-- Characterization of the `"PCT"` thresholding with `by_slice = false`: a voxel
is included iff it is eligible and its variance is strictly above the percentile
at `100 - value` of the eligible variances (the `np.any` empty-slice guard is
absorbed: an empty eligible set makes every voxel ineligible). -/
theorem varianceMaskCore_pct_false (vars : List ℚ) (mdata : List Bool)
    (value : ℚ) (d3 : ℕ) (v : ℕ) (hv : v < vars.length) :
    (varianceMaskCore vars mdata "PCT" value false d3).getD v false =
      (mdata.getD v false &&
        decide (npPercentile
          (((List.range vars.length).filter (fun w => mdata.getD w false)).map
            (fun w => vars.getD w 0)) (100 - value) < vars.getD v 0)) := by
  unfold varianceMaskCore
  rw [getD_map_range _ _ _ _]
  simp only [if_pos hv]
  have hL : (fun w => decide ((if false = true then w % d3 else 0) =
      if false = true then v % d3 else 0) && mdata.getD w false) =
      (fun w => mdata.getD w false) := by
    funext w; simp
  rw [hL]
  simp only [if_pos trivial]
  by_cases helig : (List.range vars.length).filter (fun w => mdata.getD w false) = []
  · have hvf : mdata.getD v false = false := by
      have := List.filter_eq_nil_iff.1 helig v (List.mem_range.2 hv)
      simpa using this
    rw [helig]
    rw [List.getD_eq_getElem?_getD] at hvf
    simp [hvf]
  · have hne : ((List.map (fun w => vars.getD w 0)
        ((List.range vars.length).filter (fun w => mdata.getD w false)))).isEmpty = false := by
      rw [Bool.eq_false_iff]
      intro h
      exact helig (by simpa [List.map_eq_nil_iff] using List.isEmpty_iff.1 h)
    rw [hne]
    simp only [Bool.false_eq_true, if_neg (by exact fun h => h.elim : ¬ False)]
    rfl

/-- Concrete functional image with three voxels whose temporal variances are
`2/3`, `8/3` and `6`. -/
def funcThreeVox : Func4D := ⟨3, 1, 1, [[-1, 0, 1], [-2, 0, 2], [-3, 0, 3]], 3, [1]⟩

/-- Full mask over the three voxels of `funcThreeVox`. -/
def maskThreeVox : Mask3D := ⟨3, 1, 1, [1, 1, 1], [1]⟩

/-- C5 counterexample: calling `create_temporal_variance_mask` without a mask
volume fails with the "Improper mask file" `ValueError` (the claim says it does
not fail and falls back to nonzero-variance eligibility; that fallback branch at
source lines 240-241 is unreachable because the validation at lines 169-174
rejects `mask_file_path=None` first). -/
theorem create_temporal_variance_mask_no_mask_fails :
    create_temporal_variance_mask "f.nii" funcThreeVox Option.none
      (PyThresh.str "50PCT") false =
      Except.error "Improper mask file specified (None), should be a 3D nifti file." := by
  with_unfolding_all rfl

/-- C5 amended: for every functional input with a well-formed functional path,
calling without a mask volume raises the improper-mask configuration error. -/
theorem create_temporal_variance_mask_none_mask_error
    (p : String) (f : Func4D) (thr : PyThresh) (bs : Bool)
    (hp : isNiftiPath p = true) :
    create_temporal_variance_mask p f Option.none thr bs =
      Except.error "Improper mask file specified (None), should be a 3D nifti file." := by
  simp [create_temporal_variance_mask, hp, throw, throwThe, MonadExceptOf.throw]

/-- Witness for `create_temporal_variance_mask_none_mask_error`. -/
theorem create_temporal_variance_mask_none_mask_error_witness :
    isNiftiPath "func.nii.gz" = true ∧
    create_temporal_variance_mask "func.nii.gz" funcThreeVox Option.none
      (PyThresh.num 1) true =
      Except.error "Improper mask file specified (None), should be a 3D nifti file." :=
  ⟨by with_unfolding_all rfl,
    create_temporal_variance_mask_none_mask_error "func.nii.gz" funcThreeVox
      (PyThresh.num 1) true (by with_unfolding_all rfl)⟩

/-- C6 amended: with threshold `"50PCT"` and `by_slice=false`, validation passes
and the output mask includes exactly the eligible voxels whose temporal variance
is strictly above (not at or above) the percentile at `100 - 50 = 50` of the
eligible-voxel variances. -/
theorem create_temporal_variance_mask_50pct_strictly_above
    (p mp : String) (f : Func4D) (mk : Mask3D)
    (hp : isNiftiPath p = true) (hmp : isNiftiPath mp = true)
    (hT : 3 ≤ f.tdim)
    (hlen : f.voxels.length = f.d1 * f.d2 * f.d3)
    (hmlen : mk.vals.length = f.d1 * f.d2 * f.d3)
    (hs1 : mk.d1 = f.d1) (hs2 : mk.d2 = f.d2) (hs3 : mk.d3 = f.d3)
    (haff : mk.affine = f.affine) :
    create_temporal_variance_mask p f (Option.some (mp, mk)) (PyThresh.str "50PCT") false =
      Except.ok (varianceMaskCore (f.voxels.map popVar)
        (mk.vals.map (fun x => decide (x ≠ 0))) "PCT" 50 false f.d3) ∧
    ∀ v, v < (f.voxels.map popVar).length →
      (varianceMaskCore (f.voxels.map popVar)
        (mk.vals.map (fun x => decide (x ≠ 0))) "PCT" 50 false f.d3).getD v false =
      (((mk.vals.map (fun x => decide (x ≠ 0))).getD v false) &&
        decide (npPercentile
          (((List.range (f.voxels.map popVar).length).filter
            (fun w => (mk.vals.map (fun x => decide (x ≠ 0))).getD w false)).map
            (fun w => (f.voxels.map popVar).getD w 0)) (100 - 50) <
            (f.voxels.map popVar).getD v 0)) := by
  refine ⟨?_, fun v hv => varianceMaskCore_pct_false _ _ 50 _ v hv⟩
  have hSD : matchNumThen "SD" "50PCT" = Option.none := by with_unfolding_all rfl
  have hPCT : matchNumThen "PCT" "50PCT" = Option.some "50" := by with_unfolding_all rfl
  have hF : pyFloatOfString "50" = Option.some 50 := by with_unfolding_all rfl
  have htr : truthyThresh (PyThresh.str "50PCT") = true := by with_unfolding_all rfl
  have hT' : ¬ (f.tdim < 3) := Nat.not_lt.mpr hT
  simp [create_temporal_variance_mask, hp, hmp, htr, hSD, hPCT, hF, hT',
    hs1, hs2, hs3, haff, pure, Except.pure]
  norm_num

/-- C6 counterexample: the eligible variances are `2/3, 8/3, 6`; the 50th
percentile is `8/3`; voxel 1 is eligible with variance exactly `8/3` — at the
percentile — yet is excluded (the source compares with strict `>` at line 289),
refuting "at or above". -/
theorem create_temporal_variance_mask_at_percentile_excluded :
    funcThreeVox.voxels.map popVar = [2/3, 8/3, 6] ∧
    npPercentile [2/3, 8/3, 6] 50 = 8/3 ∧
    maskThreeVox.vals.getD 1 0 ≠ 0 ∧
    create_temporal_variance_mask "f.nii" funcThreeVox
      (Option.some ("m.nii", maskThreeVox)) (PyThresh.str "50PCT") false =
      Except.ok [false, false, true] :=
  ⟨by with_unfolding_all rfl, by with_unfolding_all rfl,
    by with_unfolding_all decide, by with_unfolding_all rfl⟩

/-- Concrete two-voxel functional image for the C6 witness. -/
def funcTwoVox : Func4D := ⟨2, 1, 1, [[0, 0, 0], [-1, 0, 1]], 3, [0, 1]⟩

/-- Full mask over the two voxels of `funcTwoVox`. -/
def maskTwoVox : Mask3D := ⟨2, 1, 1, [1, 1], [0, 1]⟩

/-- Witness for `create_temporal_variance_mask_50pct_strictly_above`. -/
theorem create_temporal_variance_mask_50pct_strictly_above_witness :
    isNiftiPath "g.nii" = true ∧ isNiftiPath "gm.nii" = true ∧
    3 ≤ funcTwoVox.tdim ∧
    funcTwoVox.voxels.length = funcTwoVox.d1 * funcTwoVox.d2 * funcTwoVox.d3 ∧
    maskTwoVox.vals.length = funcTwoVox.d1 * funcTwoVox.d2 * funcTwoVox.d3 ∧
    maskTwoVox.d1 = funcTwoVox.d1 ∧ maskTwoVox.d2 = funcTwoVox.d2 ∧
    maskTwoVox.d3 = funcTwoVox.d3 ∧ maskTwoVox.affine = funcTwoVox.affine ∧
    create_temporal_variance_mask "g.nii" funcTwoVox
      (Option.some ("gm.nii", maskTwoVox)) (PyThresh.str "50PCT") false =
      Except.ok (varianceMaskCore (funcTwoVox.voxels.map popVar)
        (maskTwoVox.vals.map (fun x => decide (x ≠ 0))) "PCT" 50 false funcTwoVox.d3) :=
  ⟨by with_unfolding_all rfl, by with_unfolding_all rfl, by decide, rfl, rfl,
    rfl, rfl, rfl, rfl,
    (create_temporal_variance_mask_50pct_strictly_above "g.nii" "gm.nii"
      funcTwoVox maskTwoVox (by with_unfolding_all rfl) (by with_unfolding_all rfl)
      (by decide) rfl rfl rfl rfl rfl rfl).1⟩

/-- Reference to a workflow node output: node name and output slot, as stored
in the resource pool (`(node, 'out_file')` tuples in the source). -/
structure Artifact where
  node : String
  slot : String
deriving DecidableEq

/-- The transform chain stored under the `Transformations` pool key (a dict in
the source; missing entries raise `KeyError`). -/
structure Transforms where
  anat_to_mni_initial_xfm : Option Artifact
  anat_to_mni_rigid_xfm : Option Artifact
  anat_to_mni_affine_xfm : Option Artifact
  mni_to_anat_linear_xfm : Option Artifact
deriving DecidableEq

/-- A pool entry: an artifact reference, or the transforms dictionary. -/
inductive Resource where
  | art : Artifact → Resource
  | xforms : Transforms → Resource
deriving DecidableEq

/-- The pipeline resource pool, modelled extensionally as `key ↦ entry`. -/
def Pool : Type := String → Option Resource

/-- Python dict assignment `pool[k] = r` (extensionally). -/
def poolInsert (p : Pool) (k : String) (r : Resource) : Pool :=
  fun k2 => if k2 = k then Option.some r else p k2

/-- Derivation step names, in their fixed relative order tissue, resolution,
erosion. -/
inductive StepT where
  | tissue : StepT
  | resolution : StepT
  | erosion : StepT
deriving DecidableEq

/-- The `extraction_resolution` selector value: the literal `"Functional"`, or
any other value carried as its Python `str` (used to form `Anatomical_{}mm`). -/
inductive ExtractRes where
  | functionalRef : ExtractRes
  | value : String → ExtractRes
deriving DecidableEq

/-- The selector fields read by `generate_summarize_tissue_mask` (direct
subscripts in the source, so a missing field is a `KeyError`). -/
structure Selector where
  threshold : Option PyThresh := Option.none
  by_slice : Option Bool := Option.none
  extraction_resolution : Option ExtractRes := Option.none
deriving DecidableEq

/-- The regressor descriptor fragments for the three possible steps. -/
structure Descriptor where
  tissue : Option String := Option.none
  resolution : Option String := Option.none
  erosion : Option String := Option.none
deriving DecidableEq

/-- Model of `re.sub(r"[^\w]", "_", s)` (ASCII word characters). -/
def nodeKeyOf (s : String) : String :=
  String.mk (s.toList.map (fun c => if c.isAlphanum || c = '_' then c else '_'))

/-- One build attempt of `generate_summarize_tissue_mask` (source lines
341-477) for the step at `mask_key`, after the `mask_key in pool` guard has
failed.  Returns `none` when the source registers nothing — a tissue key
matching neither the `FunctionalVariance` nor the `CerebrospinalFluid` variant
falls through both branches silently — `some a` for the artifact the source
inserts under `mask_key`, and an error when a required pool key, transform
entry or selector field is missing (Python `KeyError` at the corresponding
access). -/
def buildStep (pool : Pool) (sel : Selector) (use_ants : Bool) (step : StepT)
    (mask_key prev_key : String) : Except String (Option Artifact) :=
  match step with
  | StepT.tissue =>
    if mask_key.startsWith "FunctionalVariance" then
      match pool "Functional", pool "GlobalSignal", sel.threshold, sel.by_slice with
      | Option.some _, Option.some _, Option.some _, Option.some _ =>
          Except.ok (Option.some
            ⟨"create_temporal_variance_mask_" ++ nodeKeyOf mask_key, "mask_file_path"⟩)
      | Option.none, _, _, _ => Except.error "KeyError: Functional"
      | _, Option.none, _, _ => Except.error "KeyError: GlobalSignal"
      | _, _, Option.none, _ => Except.error "KeyError: threshold"
      | _, _, _, Option.none => Except.error "KeyError: by_slice"
    else if mask_key = "CerebrospinalFluid" then
      match pool "Transformations" with
      | Option.some (Resource.xforms t) =>
        let chainOk : Except String Unit :=
          if use_ants then
            match t.anat_to_mni_initial_xfm, t.anat_to_mni_rigid_xfm,
                t.anat_to_mni_affine_xfm with
            | Option.some _, Option.some _, Option.some _ => Except.ok ()
            | _, _, _ => Except.error "KeyError: anat_to_mni transform"
          else
            match t.mni_to_anat_linear_xfm with
            | Option.some _ => Except.ok ()
            | Option.none => Except.error "KeyError: mni_to_anat_linear_xfm"
        match chainOk, pool "Ventricles", pool "CerebrospinalFluidUnmasked" with
        | Except.ok _, Option.some _, Option.some _ =>
            Except.ok (Option.some ⟨"mask_cfs_with_lat_ven", "out_file"⟩)
        | Except.error e, _, _ => Except.error e
        | _, Option.none, _ => Except.error "KeyError: Ventricles"
        | _, _, Option.none => Except.error "KeyError: CerebrospinalFluidUnmasked"
      | Option.some (Resource.art _) =>
          Except.error "TypeError: Transformations entry is not a mapping"
      | Option.none => Except.error "KeyError: Transformations"
    else Except.ok Option.none
  | StepT.resolution =>
    match sel.extraction_resolution with
    | Option.none => Except.error "KeyError: extraction_resolution"
    | Option.some er =>
      let refOk : Except String Unit :=
        match er with
        | ExtractRes.functionalRef =>
          match pool "Functional" with
          | Option.some _ => Except.ok ()
          | Option.none => Except.error "KeyError: Functional"
        | ExtractRes.value r =>
          match pool ("Anatomical_" ++ r ++ "mm") with
          | Option.some _ => Except.ok ()
          | Option.none => Except.error ("KeyError: Anatomical_" ++ r ++ "mm")
      match refOk, pool prev_key with
      | Except.ok _, Option.some _ =>
          Except.ok (Option.some
            ⟨"mask_to_epi_flirt_applyxfm_" ++ nodeKeyOf mask_key, "out_file"⟩)
      | Except.error e, _ => Except.error e
      | _, Option.none => Except.error ("KeyError: " ++ prev_key)
  | StepT.erosion =>
    match pool prev_key with
    | Option.some _ =>
        Except.ok (Option.some ⟨"erode_mask_node_" ++ nodeKeyOf mask_key, "out_file"⟩)
    | Option.none => Except.error ("KeyError: " ++ prev_key)

/-- Builder state: the pool, and the list of prefix keys built so far (one
entry per completed builder invocation). -/
def PState : Type := Pool × List String

/-- One iteration of the step loop (source lines 322-477): skip if the prefix
key is already pooled, otherwise attempt the build and, on success, insert the
new artifact under the prefix key before the next step. -/
def processStep (sel : Selector) (use_ants : Bool) (st : PState)
    (t : StepT × String × String) : PState × Option String :=
  if (st.1 t.2.1).isSome then (st, Option.none)
  else
    match buildStep st.1 sel use_ants t.1 t.2.1 t.2.2 with
    | Except.error e => (st, Option.some e)
    | Except.ok Option.none => (st, Option.none)
    | Except.ok (Option.some a) =>
        ((poolInsert st.1 t.2.1 (Resource.art a), st.2 ++ [t.2.1]), Option.none)

/-- The step loop; an exception aborts the loop but (as with Python's in-place
dict mutation) the state reached so far is kept. -/
def runSteps (sel : Selector) (use_ants : Bool) :
    List (StepT × String × String) → PState → PState × Option String
  | [], st => (st, Option.none)
  | t :: rest, st =>
    match processStep sel use_ants st t with
    | (st2, Option.none) => runSteps sel use_ants rest st2
    | (st2, Option.some e) => (st2, Option.some e)

/-- The ordered step list of a descriptor: the keys among tissue, resolution,
erosion that are present, in that fixed order (source lines 311-315). -/
def stepsOf (d : Descriptor) : List (StepT × String) :=
  (match d.tissue with
   | Option.some f => [(StepT.tissue, f)]
   | Option.none => []) ++
  (match d.resolution with
   | Option.some f => [(StepT.resolution, f)]
   | Option.none => []) ++
  (match d.erosion with
   | Option.some f => [(StepT.erosion, f)]
   | Option.none => [])

/-- Annotates each step with its prefix key (`"_".join` of the fragments up to
and including it) and the previous prefix key. -/
def mkTriples : Option String → List (StepT × String) → List (StepT × String × String)
  | _, [] => []
  | acc, (s, frag) :: rest =>
      let mk := match acc with
        | Option.none => frag
        | Option.some a => a ++ "_" ++ frag
      (s, mk, acc.getD "") :: mkTriples (Option.some mk) rest

/-- Embedding of `generate_summarize_tissue_mask` (source lines 302-480).
Returns the final pool, the list of prefix keys actually built, and — on
success — the full mask key. -/
def generate_summarize_tissue_mask (pool : Pool) (d : Descriptor) (sel : Selector)
    (use_ants : Bool) : (Pool × List String) × Except String String :=
  let steps := stepsOf d
  let fullKey := String.intercalate "_" (steps.map (fun sf => sf.2))
  let res := runSteps sel use_ants (mkTriples Option.none steps) (pool, [])
  (res.1,
    match res.2 with
    | Option.none => Except.ok fullKey
    | Option.some e => Except.error e)


/-- Loop invariant of the derivation-cache builder, relative to the pool `p0`
the call started from: the pool only grows (no entry is removed or
overwritten), the built keys are pairwise distinct, and every built key was
absent from `p0` and is present afterwards. -/
def CacheInv (p0 : Pool) (st : PState) : Prop :=
  (∀ k v, p0 k = Option.some v → st.1 k = Option.some v) ∧
  st.2.Nodup ∧
  (∀ k, k ∈ st.2 → st.1 k ≠ Option.none ∧ p0 k = Option.none)

theorem processStep_inv (p0 : Pool) (sel : Selector) (ua : Bool) (st : PState)
    (t : StepT × String × String) (h : CacheInv p0 st) :
    CacheInv p0 (processStep sel ua st t).1 := by
  unfold processStep
  by_cases hg : (st.1 t.2.1).isSome
  · simp only [if_pos hg]; exact h
  · simp only [if_neg hg]
    have hnone : st.1 t.2.1 = Option.none := by
      cases hx : st.1 t.2.1
      · rfl
      · rw [hx] at hg; simp at hg
    cases hb : buildStep st.1 sel ua t.1 t.2.1 t.2.2 with
    | error e => exact h
    | ok o =>
      cases o with
      | none => exact h
      | some a =>
        refine ⟨?_, ?_, ?_⟩
        · intro k v hk
          have hst := h.1 k v hk
          have hne : k ≠ t.2.1 := by
            intro he
            rw [he, hnone] at hst
            exact Option.noConfusion hst
          simpa [poolInsert, hne] using hst
        · have hnotin : t.2.1 ∉ st.2 := fun hin => (h.2.2 t.2.1 hin).1 hnone
          simp [List.nodup_append, h.2.1, hnotin]
        · intro k hk
          rcases List.mem_append.1 hk with hk1 | hk2
          · rcases h.2.2 k hk1 with ⟨hp1, hp2⟩
            refine ⟨?_, hp2⟩
            intro he
            by_cases hke : k = t.2.1
            · rw [hke] at he
              simp [poolInsert] at he
            · simp [poolInsert, hke] at he
              exact hp1 he
          · have hke : k = t.2.1 := by simpa using hk2
            refine ⟨?_, ?_⟩
            · rw [hke]; simp [poolInsert]
            · cases hx : p0 k with
              | none => rfl
              | some v =>
                have hcontra := h.1 k v hx
                rw [hke, hnone] at hcontra
                exact Option.noConfusion hcontra

theorem runSteps_inv (p0 : Pool) (sel : Selector) (ua : Bool) :
    ∀ (ts : List (StepT × String × String)) (st : PState),
      CacheInv p0 st → CacheInv p0 (runSteps sel ua ts st).1 := by
  intro ts
  induction ts with
  | nil => intro st h; exact h
  | cons t rest ih =>
    intro st h
    have hps := processStep_inv p0 sel ua st t h
    unfold runSteps
    cases hp : processStep sel ua st t with
    | mk st2 oe =>
      rw [hp] at hps
      cases oe with
      | none => exact ih st2 hps
      | some e => exact hps

theorem generate_summarize_tissue_mask_cache_invariants
    (pool : Pool) (d1 : Descriptor) (sel1 : Selector) (ua1 : Bool)
    (d2 : Descriptor) (sel2 : Selector) (ua2 : Bool) :
    (∀ k v, pool k = Option.some v →
      (generate_summarize_tissue_mask pool d1 sel1 ua1).1.1 k = Option.some v) ∧
    ((generate_summarize_tissue_mask pool d1 sel1 ua1).1.2.Nodup) ∧
    (∀ k, k ∈ (generate_summarize_tissue_mask pool d1 sel1 ua1).1.2 →
      (generate_summarize_tissue_mask pool d1 sel1 ua1).1.1 k ≠ Option.none ∧
      pool k = Option.none) ∧
    (∀ k v, (generate_summarize_tissue_mask pool d1 sel1 ua1).1.1 k = Option.some v →
      (generate_summarize_tissue_mask
        (generate_summarize_tissue_mask pool d1 sel1 ua1).1.1 d2 sel2 ua2).1.1 k =
        Option.some v ∧
      k ∉ (generate_summarize_tissue_mask
        (generate_summarize_tissue_mask pool d1 sel1 ua1).1.1 d2 sel2 ua2).1.2) := by
  have base : ∀ (p : Pool), CacheInv p (p, []) :=
    fun p => ⟨fun k v h => h, List.nodup_nil, by intro k hk; simp at hk⟩
  have h1 : CacheInv pool (generate_summarize_tissue_mask pool d1 sel1 ua1).1 := by
    unfold generate_summarize_tissue_mask
    exact runSteps_inv pool sel1 ua1 _ _ (base pool)
  have h2 : CacheInv (generate_summarize_tissue_mask pool d1 sel1 ua1).1.1
      (generate_summarize_tissue_mask
        (generate_summarize_tissue_mask pool d1 sel1 ua1).1.1 d2 sel2 ua2).1 := by
    unfold generate_summarize_tissue_mask
    exact runSteps_inv _ sel2 ua2 _ _ (base _)
  refine ⟨h1.1, h1.2.1, h1.2.2, ?_⟩
  intro k v hv
  refine ⟨h2.1 k v hv, ?_⟩
  intro hin
  have := (h2.2.2 k hin).2
  rw [this] at hv
  exact Option.noConfusion hv


/-- The empty resource pool. -/
def emptyPool : Pool := fun _ => Option.none

/-- A selector with no fields set. -/
def selEmpty : Selector := ⟨Option.none, Option.none, Option.none⟩

/-- Descriptor with only a `GreyMatter` tissue step. -/
def descGreyOnly : Descriptor := ⟨Option.some "GreyMatter", Option.none, Option.none⟩

/-- Descriptor with only a `WhiteMatter` tissue step. -/
def descWhiteOnly : Descriptor := ⟨Option.some "WhiteMatter", Option.none, Option.none⟩

theorem generate_summarize_tissue_mask_unmatched_prefix_not_cached :
    (generate_summarize_tissue_mask emptyPool descGreyOnly selEmpty true).2 =
      Except.ok "GreyMatter" ∧
    (generate_summarize_tissue_mask emptyPool descGreyOnly selEmpty true).1.2 = [] ∧
    (generate_summarize_tissue_mask emptyPool descGreyOnly selEmpty true).1.1 "GreyMatter" =
      Option.none ∧
    (generate_summarize_tissue_mask
      (generate_summarize_tissue_mask emptyPool descGreyOnly selEmpty true).1.1
      descGreyOnly selEmpty true).1.2 = [] ∧
    (generate_summarize_tissue_mask
      (generate_summarize_tissue_mask emptyPool descGreyOnly selEmpty true).1.1
      descGreyOnly selEmpty true).1.1 "GreyMatter" = Option.none :=
  ⟨by with_unfolding_all rfl, by with_unfolding_all rfl, by with_unfolding_all rfl,
   by with_unfolding_all rfl, by with_unfolding_all rfl⟩

theorem generate_summarize_tissue_mask_unmatched_tissue_no_error :
    generate_summarize_tissue_mask emptyPool descWhiteOnly selEmpty true =
      ((emptyPool, []), Except.ok "WhiteMatter") := by
  with_unfolding_all rfl

theorem tissue_step_unmatched_silently_skipped (pool : Pool) (bs : List String)
    (sel : Selector) (ua : Bool) (mask_key prev_key : String)
    (h1 : mask_key.startsWith "FunctionalVariance" = false)
    (h2 : mask_key ≠ "CerebrospinalFluid") :
    processStep sel ua (pool, bs) (StepT.tissue, mask_key, prev_key) =
      ((pool, bs), Option.none) := by
  unfold processStep
  dsimp only
  by_cases hg : (pool mask_key).isSome
  · rw [if_pos hg]
  · rw [if_neg hg]
    unfold buildStep
    dsimp only
    rw [h1, if_neg Bool.false_ne_true, if_neg h2]

theorem tissue_step_unmatched_silently_skipped_witness :
    ("GreyMatter".startsWith "FunctionalVariance" = false) ∧
    ("GreyMatter" ≠ "CerebrospinalFluid") ∧
    processStep selEmpty true (emptyPool, []) (StepT.tissue, "GreyMatter", "") =
      ((emptyPool, []), Option.none) :=
  ⟨by with_unfolding_all rfl, by with_unfolding_all decide,
    tissue_step_unmatched_silently_skipped emptyPool [] selEmpty true "GreyMatter" ""
      (by with_unfolding_all rfl) (by with_unfolding_all decide)⟩

/-- White-matter artifact pre-seeded in the pool for the C2 witness. -/
def artWM : Artifact := ⟨"segment_wm", "out_file"⟩

/-- Anatomical reference artifact pre-seeded in the pool for the C2 witness. -/
def artAnat2 : Artifact := ⟨"anat_res_2mm", "out_file"⟩

/-- Pool holding a `WhiteMatter` mask and a 2mm anatomical reference. -/
def poolWM : Pool := fun k =>
  if k = "WhiteMatter" then Option.some (Resource.art artWM)
  else if k = "Anatomical_2mm" then Option.some (Resource.art artAnat2)
  else Option.none

/-- Selector requesting extraction at resolution 2. -/
def selRes2 : Selector := ⟨Option.none, Option.none, Option.some (ExtractRes.value "2")⟩

/-- Descriptor with tissue `WhiteMatter` and resolution fragment `2`. -/
def descWMres : Descriptor := ⟨Option.some "WhiteMatter", Option.some "2", Option.none⟩

theorem generate_summarize_tissue_mask_cache_invariants_witness :
    poolWM "WhiteMatter" = Option.some (Resource.art artWM) ∧
    (generate_summarize_tissue_mask poolWM descWMres selRes2 true).1.1 "WhiteMatter" =
      Option.some (Resource.art artWM) ∧
    (generate_summarize_tissue_mask poolWM descWMres selRes2 true).1.1 "WhiteMatter_2" =
      Option.some (Resource.art ⟨"mask_to_epi_flirt_applyxfm_WhiteMatter_2", "out_file"⟩) ∧
    (generate_summarize_tissue_mask
      (generate_summarize_tissue_mask poolWM descWMres selRes2 true).1.1
      descWMres selRes2 true).1.1 "WhiteMatter_2" =
      Option.some (Resource.art ⟨"mask_to_epi_flirt_applyxfm_WhiteMatter_2", "out_file"⟩) ∧
    "WhiteMatter_2" ∉ (generate_summarize_tissue_mask
      (generate_summarize_tissue_mask poolWM descWMres selRes2 true).1.1
      descWMres selRes2 true).1.2 :=
  ⟨by with_unfolding_all rfl,
   (generate_summarize_tissue_mask_cache_invariants poolWM descWMres selRes2 true
      descWMres selRes2 true).1 "WhiteMatter" (Resource.art artWM)
      (by with_unfolding_all rfl),
   by with_unfolding_all rfl,
   ((generate_summarize_tissue_mask_cache_invariants poolWM descWMres selRes2 true
      descWMres selRes2 true).2.2.2 "WhiteMatter_2"
      (Resource.art ⟨"mask_to_epi_flirt_applyxfm_WhiteMatter_2", "out_file"⟩)
      (by with_unfolding_all rfl)).1,
   ((generate_summarize_tissue_mask_cache_invariants poolWM descWMres selRes2 true
      descWMres selRes2 true).2.2.2 "WhiteMatter_2"
      (Resource.art ⟨"mask_to_epi_flirt_applyxfm_WhiteMatter_2", "out_file"⟩)
      (by with_unfolding_all rfl)).2⟩

/-- Number of columns of a list-of-rows matrix (`shape[1]`, 0 when empty). -/
def numCols (A : List (List ℝ)) : ℕ :=
  match A with
  | [] => 0
  | r :: _ => r.length

/-- Transpose of a rectangular list-of-rows matrix. -/
def transposeM (A : List (List ℝ)) : List (List ℝ) :=
  (List.range (numCols A)).map (fun j => A.map (fun r => r.getD j 0))

/-- Per-row mean, numpy `.mean(1)`. -/
noncomputable def meanAxis1 (A : List (List ℝ)) : List ℝ :=
  A.map (fun r => r.sum / r.length)

/-- Per-column mean, numpy `.mean(0)`. -/
noncomputable def meanAxis0 (A : List (List ℝ)) : List ℝ :=
  (transposeM A).map (fun c => c.sum / c.length)

/-- Entry-wise division by a scalar (`A /= c`). -/
noncomputable def divideM (A : List (List ℝ)) (c : ℝ) : List (List ℝ) :=
  A.map (fun r => r.map (fun x => x / c))

/-- Euclidean norm of a real vector. -/
noncomputable def vecNorm (v : List ℝ) : ℝ :=
  Real.sqrt ((v.map (fun x => x * x)).sum)

/-- Model of `np.linalg.norm(A, 2)` for a 2-D array: the operator 2-norm
(largest singular value), characterized as the supremum of `‖A·v‖` over unit
vectors.  Only the fact that it is one scalar is used below: dividing an array
by it preserves the array's shape. -/
noncomputable def npNorm2 (A : List (List ℝ)) : ℝ :=
  sSup {r : ℝ | ∃ v : List ℝ, v.length = numCols A ∧ vecNorm v = 1 ∧
    r = vecNorm (A.map (fun row => ((row.zip v).map (fun pq => pq.1 * pq.2)).sum))}

/-- Linear detrend of one time course (`scipy.signal.detrend(..., type='linear')`
along the row): subtract the least-squares line over `t = 0, …, n-1`. -/
noncomputable def detrendRow (xs : List ℝ) : List ℝ :=
  let n : ℝ := xs.length
  let tbar : ℝ := ((List.range xs.length).map (fun t => (t : ℝ))).sum / n
  let xbar : ℝ := xs.sum / n
  let sxy : ℝ := ((xs.zip (List.range xs.length)).map
    (fun p => (p.1 - xbar) * ((p.2 : ℝ) - tbar))).sum
  let sxx : ℝ := ((List.range xs.length).map (fun t => ((t : ℝ) - tbar) ^ 2)).sum
  (xs.zip (List.range xs.length)).map
    (fun p => p.1 - (xbar + (sxy / sxx) * ((p.2 : ℝ) - tbar)))

/-- Model of the left factor `U` of `np.linalg.svd(A, full_matrices=False)`.
Only the shape contract of the library call is modelled: `U` has as many rows
as `A` and `min(rows, cols)` columns.  The claims proved below depend only on
this shape (they count rows and columns of the `PC` output), so the entries of
the factor are not modelled. -/
noncomputable def npSvdU (A : List (List ℝ)) : List (List ℝ) :=
  List.replicate A.length (List.replicate (min A.length (numCols A)) 0)

/-- Output array of `summarize_timeseries`: a column vector or a matrix. -/
inductive NPArr where
  | vec : List ℝ → NPArr
  | mat : List (List ℝ) → NPArr

/-- The `summary` argument: a bare method name, or a dict with a method and an
optional `components` entry. -/
inductive SummaryParam where
  | str : String → SummaryParam
  | dict : String → Option ℕ → SummaryParam

/-- Voxel selection of `summarize_timeseries` (source lines 488-494): the masks
are summed and thresholded at zero (logical OR), and the functional rows at the
selected positions form the voxel-by-time block. -/
def selectVoxels (voxelData : List (List ℝ)) (masksVals : List (List ℚ)) :
    List (List ℝ) :=
  ((List.range voxelData.length).filter
    (fun i => decide (0 < (masksVals.map (fun m => m.getD i 0)).sum))).map
    (fun i => voxelData.getD i [])

/-- Embedding of `summarize_timeseries` (source lines 483-526).  The functional
volume is passed as its flattened voxel list (one time course per voxel), the
mask volumes as flattened value lists.  The sequential `if` blocks of the
source are an if-chain here because the method names are distinct; an
unrecognized method leaves the initial `np.zeros(shape[-1])` vector.  Note the
`DetrendNormMean` branch transposes the detrended block (the source's `.T` at
line 507) before the axis-0 mean. -/
noncomputable def summarize_timeseries (voxelData : List (List ℝ))
    (masksVals : List (List ℚ)) (summary : SummaryParam) : Except String NPArr :=
  let method : String :=
    match summary with
    | SummaryParam.str s => s
    | SummaryParam.dict m _ => m
  let masked : List (List ℝ) := selectVoxels voxelData masksVals
  let tlen : ℕ := numCols voxelData
  if method = "Mean" then Except.ok (NPArr.vec (meanAxis0 masked))
  else if method = "NormMean" then
    Except.ok (NPArr.vec (meanAxis0 (divideM masked (npNorm2 masked))))
  else if method = "DetrendNormMean" then
    let md := transposeM (masked.map detrendRow)
    Except.ok (NPArr.vec (meanAxis0 (divideM md (npNorm2 md))))
  else if method = "PC" then
    match summary with
    | SummaryParam.dict _ (Option.some k) =>
      let msT := transposeM masked
      let meanSig := List.replicate (numCols masked) (meanAxis1 masked)
      let diff := (msT.zip meanSig).map
        (fun p => (p.1.zip p.2).map (fun q => q.1 - q.2))
      Except.ok (NPArr.mat ((npSvdU diff).map (fun r => r.take k)))
    | _ => Except.error "KeyError: components"
  else Except.ok (NPArr.vec (List.replicate tlen 0))


theorem length_transposeM (A : List (List ℝ)) : (transposeM A).length = numCols A := by
  simp [transposeM]

theorem mem_transposeM_length (A : List (List ℝ)) (r : List ℝ) (h : r ∈ transposeM A) :
    r.length = A.length := by
  simp only [transposeM, List.mem_map] at h
  rcases h with ⟨j, _, rfl⟩
  simp

theorem selectVoxels_mem (d : List (List ℝ)) (m : List (List ℚ)) (r : List ℝ)
    (h : r ∈ selectVoxels d m) : r ∈ d := by
  simp only [selectVoxels, List.mem_map, List.mem_filter, List.mem_range] at h
  rcases h with ⟨i, ⟨hi, _⟩, rfl⟩
  rw [List.getD_eq_getElem _ _ hi]
  exact List.getElem_mem hi

theorem summarize_timeseries_pc_shape (voxelData : List (List ℝ))
    (masksVals : List (List ℚ)) (k : ℕ)
    (hrect : ∀ r ∈ voxelData, r.length = numCols voxelData)
    (hne : selectVoxels voxelData masksVals ≠ []) :
    ∃ M : List (List ℝ),
      summarize_timeseries voxelData masksVals (SummaryParam.dict "PC" (Option.some k)) =
        Except.ok (NPArr.mat M) ∧
      M.length = numCols voxelData ∧
      ∀ r ∈ M, r.length =
        min k (min (numCols voxelData) (selectVoxels voxelData masksVals).length) := by
  have hcols : numCols (selectVoxels voxelData masksVals) = numCols voxelData := by
    cases hmm : selectVoxels voxelData masksVals with
    | nil => exact absurd hmm hne
    | cons r rest =>
      have hr : r ∈ selectVoxels voxelData masksVals := by
        rw [hmm]; exact List.mem_cons_self r rest
      have := hrect r (selectVoxels_mem _ _ _ hr)
      simpa [numCols] using this
  have hdiff_len :
      (((transposeM (selectVoxels voxelData masksVals)).zip
        (List.replicate (numCols (selectVoxels voxelData masksVals))
          (meanAxis1 (selectVoxels voxelData masksVals)))).map
        (fun p => (p.1.zip p.2).map (fun q => q.1 - q.2))).length =
      numCols (selectVoxels voxelData masksVals) := by
    simp [List.length_zip, length_transposeM]
  refine ⟨(npSvdU (((transposeM (selectVoxels voxelData masksVals)).zip
      (List.replicate (numCols (selectVoxels voxelData masksVals))
        (meanAxis1 (selectVoxels voxelData masksVals)))).map
      (fun p => (p.1.zip p.2).map (fun q => q.1 - q.2)))).map (fun r => r.take k),
    ?_, ?_, ?_⟩
  · unfold summarize_timeseries
    rw [if_neg (by decide : ("PC" : String) ≠ "Mean"),
        if_neg (by decide : ("PC" : String) ≠ "NormMean"),
        if_neg (by decide : ("PC" : String) ≠ "DetrendNormMean"),
        if_pos rfl]
  · rw [List.length_map, npSvdU, List.length_replicate, hdiff_len, hcols]
  · intro r hr
    simp only [List.mem_map] at hr
    rcases hr with ⟨row, hrow, rfl⟩
    have hrow' := List.eq_of_mem_replicate hrow
    subst hrow'
    rw [List.length_take, List.length_replicate, hdiff_len]
    have hT : 0 < numCols (selectVoxels voxelData masksVals) := by
      by_contra hz
      have hz0 : numCols (selectVoxels voxelData masksVals) = 0 := Nat.eq_zero_of_not_pos hz
      have : (npSvdU (((transposeM (selectVoxels voxelData masksVals)).zip
          (List.replicate (numCols (selectVoxels voxelData masksVals))
            (meanAxis1 (selectVoxels voxelData masksVals)))).map
          (fun p => (p.1.zip p.2).map (fun q => q.1 - q.2)))).length = 0 := by
        rw [npSvdU, List.length_replicate, hdiff_len, hz0]
      rw [List.length_eq_zero] at this
      rw [this] at hrow
      exact absurd hrow (List.not_mem_nil _)
    have hColsDiff : numCols ((((transposeM (selectVoxels voxelData masksVals)).zip
        (List.replicate (numCols (selectVoxels voxelData masksVals))
          (meanAxis1 (selectVoxels voxelData masksVals)))).map
        (fun p => (p.1.zip p.2).map (fun q => q.1 - q.2)))) =
        (selectVoxels voxelData masksVals).length := by
      rcases Nat.exists_eq_add_of_lt hT with ⟨s, hs⟩
      rw [show numCols (selectVoxels voxelData masksVals) = s + 1 by omega]
      simp only [transposeM]
      rw [show numCols (selectVoxels voxelData masksVals) = s + 1 by omega] at hcols ⊢
      rw [List.range_succ_eq_map, List.replicate_succ]
      simp [numCols, List.zip_cons_cons, List.length_zip, meanAxis1]
    rw [hColsDiff, hcols]
/-- C8: with method `DetrendNormMean` on a 2-voxel, 3-timepoint block, the
output has one value per voxel (length 2), not one per timepoint (length 3):
the source transposes the detrended block (`.T`, line 507) and then averages
over axis 0, which after the transpose is the time axis. -/
theorem summarize_timeseries_detrendnormmean_length_bug :
    ∃ r : List ℝ,
      summarize_timeseries [[1, 2, 3], [4, 5, 6]] [[1, 1]]
        (SummaryParam.str "DetrendNormMean") = Except.ok (NPArr.vec r) ∧
      r.length = 2 ∧ (2 : ℕ) ≠ 3 := by
  refine ⟨_, by with_unfolding_all rfl, by with_unfolding_all rfl, by norm_num⟩

/-- C9 counterexample: with one selected voxel, three timepoints and
`components = 2`, the `U[:, 0:components]` slice is clamped by `U`'s
`min(T, V) = 1` columns, so the output matrix has 1 column, not 2.  (The
entries shown are those of the shape-level SVD model `npSvdU`.) -/
theorem summarize_timeseries_pc_fewer_columns :
    summarize_timeseries [[1, 2, 3]] [[1]] (SummaryParam.dict "PC" (Option.some 2)) =
      Except.ok (NPArr.mat [[0], [0], [0]]) ∧
    ([[(0 : ℝ)], [0], [0]] : List (List ℝ)).length = 3 ∧
    (∀ r ∈ ([[(0 : ℝ)], [0], [0]] : List (List ℝ)), r.length = 1) ∧ (1 : ℕ) ≠ 2 := by
  refine ⟨by with_unfolding_all rfl, rfl, ?_, by norm_num⟩
  intro r hr
  fin_cases hr <;> rfl

/-- Witness for `summarize_timeseries_pc_shape`. -/
theorem summarize_timeseries_pc_shape_witness :
    (∀ r ∈ ([[1, 2], [3, 4]] : List (List ℝ)), r.length = numCols [[1, 2], [3, 4]]) ∧
    selectVoxels [[1, 2], [3, 4]] [[1, 1]] ≠ [] ∧
    (∃ M : List (List ℝ),
      summarize_timeseries [[1, 2], [3, 4]] [[1, 1]]
        (SummaryParam.dict "PC" (Option.some 1)) = Except.ok (NPArr.mat M) ∧
      M.length = numCols [[1, 2], [3, 4]] ∧
      ∀ r ∈ M, r.length =
        min 1 (min (numCols [[1, 2], [3, 4]]) (selectVoxels [[1, 2], [3, 4]] [[1, 1]]).length)) :=
  ⟨by intro r hr; fin_cases hr <;> rfl,
   by
     rw [show selectVoxels [[1, 2], [3, 4]] [[1, 1]] = [[1, 2], [3, 4]] from
       by with_unfolding_all rfl]
     simp,
   summarize_timeseries_pc_shape [[1, 2], [3, 4]] [[1, 1]] 1
     (by intro r hr; fin_cases hr <;> rfl)
     (by
       rw [show selectVoxels [[1, 2], [3, 4]] [[1, 1]] = [[1, 2], [3, 4]] from
         by with_unfolding_all rfl]
       simp)⟩

/-- A selector value that may be a string or a number (Python duck typing on
`type(t) != str`). -/
inductive TVal where
  | vstr : String → TVal
  | vnum : ℚ → TVal
deriving DecidableEq

/-- Python truthiness of an optional string-or-number value. -/
def truthyTVal : Option TVal → Bool
  | Option.none => false
  | Option.some (TVal.vstr s) => s ≠ ""
  | Option.some (TVal.vnum q) => q ≠ 0

/-- The `summary` option: a bare method name, or a dict with a method and an
optional `components`. -/
inductive SummarySel where
  | sstr : String → SummarySel
  | sdict : String → Option Int → SummarySel
deriving DecidableEq

/-- One `Censor.thresholds` entry: `{'type': …, 'value': …}`. -/
structure CThresh where
  ctype : String
  cvalue : TVal
deriving DecidableEq

/-- A per-type option descriptor with the fields `__repr__` reads; `none`
stands for an absent dict key.  (The source's `_derivative_params` guard
`if not selector` returns `""` for an empty dict, which coincides with the
all-fields-absent case here.) -/
structure RSel where
  extraction_resolution : Option ℚ := Option.none
  erode_mask : Option Bool := Option.none
  summary : Option SummarySel := Option.none
  include_squared : Option Bool := Option.none
  include_delayed : Option Bool := Option.none
  include_delayed_squared : Option Bool := Option.none
  by_slice : Option Bool := Option.none
  threshold : Option TVal := Option.none
  tissues : Option (List String) := Option.none
  degree : Option Int := Option.none
  top_frequency : Option ℚ := Option.none
  bottom_frequency : Option ℚ := Option.none
  method : Option String := Option.none
  number_of_previous_trs_to_remove : Option Int := Option.none
  number_of_subsequent_trs_to_remove : Option Int := Option.none
  thresholds : Option (List CThresh) := Option.none
deriving DecidableEq

/-- Round to the nearest integer, ties to even (the rounding of Python's
string formatting on exactly representable values). -/
def roundHalfEven (x : ℚ) : ℤ :=
  let f := ⌊x⌋
  let r := x - (f : ℚ)
  if r < 1 / 2 then f
  else if 1 / 2 < r then f + 1
  else if f % 2 = 0 then f else f + 1

/-- Two-digit zero-padded decimal of a natural number below 100. -/
def natPad2 (n : ℕ) : String := if n < 10 then "0" ++ toString n else toString n

/-- Model of Python's `"%.2f" % q` for rationals (binary-float representation
error is not modelled; the values formatted by the source are exactly
representable in the claims proved). -/
def format2f (q : ℚ) : String :=
  let n := roundHalfEven (q * 100)
  let sign := if n < 0 then "-" else ""
  let a := n.natAbs
  sign ++ toString (a / 100) ++ "." ++ natPad2 (a % 100)

/-- Floor of the base-10 logarithm of a positive rational, searched over the
range `[-30, 30]` (ample for the magnitudes the source formats). -/
def log10floor (aq : ℚ) : ℤ :=
  (((List.range 61).find? (fun i =>
      decide ((10 : ℚ) ^ ((i : ℤ) - 30) ≤ aq ∧ aq < (10 : ℚ) ^ ((i : ℤ) - 29)))).map
    (fun i => (i : ℤ) - 30)).getD 0

/-- Model of Python's `"%.2g" % q`: two significant digits, trailing zero
stripped, fixed notation for exponents in `[-4, 1]` and scientific notation
otherwise. -/
def formatG2 (q : ℚ) : String :=
  if q = 0 then "0"
  else
    let sign := if q < 0 then "-" else ""
    let aq := |q|
    let e0 := log10floor aq
    let m0 := roundHalfEven (aq / (10 : ℚ) ^ (e0 - 1))
    let m : ℕ := if m0.natAbs = 100 then 10 else m0.natAbs
    let e : ℤ := if m0.natAbs = 100 then e0 + 1 else e0
    let d1 : ℕ := m / 10
    let d2 : ℕ := m % 10
    let mant := if d2 = 0 then toString d1 else toString d1 ++ "." ++ toString d2
    sign ++
      (if e = 1 then toString d1 ++ toString d2
       else if e = 0 then mant
       else if e = -1 then
         (if d2 = 0 then "0." ++ toString d1 else "0." ++ toString d1 ++ toString d2)
       else if e = -2 then
         (if d2 = 0 then "0.0" ++ toString d1 else "0.0" ++ toString d1 ++ toString d2)
       else if e = -3 then
         (if d2 = 0 then "0.00" ++ toString d1 else "0.00" ++ toString d1 ++ toString d2)
       else if e = -4 then
         (if d2 = 0 then "0.000" ++ toString d1 else "0.000" ++ toString d1 ++ toString d2)
       else
         mant ++ "e" ++ (if 0 ≤ e then "+" else "-") ++ natPad2 e.natAbs)

/-- The fixed regressor-type enumeration with its short codes, in the order of
the `regs` dict literal (source lines 578-589). -/
def regsList : List (String × String) :=
  [("GreyMatter", "GM"), ("WhiteMatter", "WM"), ("CerebrospinalFluid", "CSF"),
   ("tCompCor", "tC"), ("aCompCor", "aC"), ("GlobalSignal", "G"), ("Motion", "M"),
   ("PolyOrt", "P"), ("Bandpass", "B"), ("Censor", "C")]

/-- Censor method codes (source lines 666-671). -/
def censoringMap : List (String × String) :=
  [("Kill", "K"), ("Zero", "Z"), ("Interpolate", "I"), ("SpikeRegression", "S")]

/-- Censor threshold-type codes (source lines 673-676). -/
def thresholdsMap : List (String × String) :=
  [("FD", "FD"), ("DVARS", "DV")]

/-- Embedding of `_derivative_params` (source lines 544-554). -/
def derivativeParams (s : RSel) : String :=
  (if s.include_squared.getD false then "S" else "") ++
  (if s.include_delayed.getD false then "D" else "") ++
  (if s.include_delayed_squared.getD false then "B" else "")

/-- Summary-method codes of `_summary_params` (source lines 559-565). -/
def methodsMap : List (String × String) :=
  [("PC", "PC"), ("Mean", "M"), ("NormMean", "NM"), ("DetrendMean", "DM"),
   ("DetrendNormMean", "DNM")]

/-- Embedding of `_summary_params` (source lines 556-575); a missing `summary`
key, an unknown method name or a missing `components` for `PC` raise
`KeyError`. -/
def summaryParams (s : RSel) : Except String String :=
  match s.summary with
  | Option.none => Except.error "KeyError: summary"
  | Option.some (SummarySel.sstr name) =>
      match methodsMap.lookup name with
      | Option.some rep => Except.ok rep
      | Option.none => Except.error "KeyError: method"
  | Option.some (SummarySel.sdict name comps) =>
      match methodsMap.lookup name with
      | Option.none => Except.error "KeyError: method"
      | Option.some rep =>
          if name = "PC" then
            match comps with
            | Option.some n => Except.ok (rep ++ toString n)
            | Option.none => Except.error "KeyError: components"
          else Except.ok rep

/-- Stable descending sort of the Censor thresholds by their `type` string:
`sorted(…, reverse=True, key=lambda d: d['type'])` (Python's sort is stable,
as is `List.mergeSort`). -/
def sortThresholds (l : List CThresh) : List CThresh :=
  l.mergeSort (fun a b => decide (b.ctype ≤ a.ctype))

/-- Threshold token of one Censor thresholds entry: type code followed by the
value (strings verbatim, numbers through `"%.2g"`). -/
def cthreshToken (st : CThresh) : Except String String :=
  match thresholdsMap.lookup st.ctype with
  | Option.none => Except.error "KeyError: threshold type"
  | Option.some tcode =>
      Except.ok (tcode ++
        (match st.cvalue with
         | TVal.vstr s => s
         | TVal.vnum q => formatG2 q))

/-- Tokens of a Censor thresholds list, in order. -/
def cthreshTokens : List CThresh → Except String (List String)
  | [] => Except.ok []
  | st :: rest => do
      let t ← cthreshToken st
      let ts ← cthreshTokens rest
      Except.ok (t :: ts)

/-- Short codes of the aCompCor `tissues` list (`regs[t]`, `KeyError` when a
name is not a regressor type). -/
def regsCodes : List String → Except String (List String)
  | [] => Except.ok []
  | t :: rest =>
      match regsList.lookup t with
      | Option.some c => do
          let cs ← regsCodes rest
          Except.ok (c :: cs)
      | Option.none => Except.error ("KeyError: " ++ t)

/-- Join the pieces of one regressor token: `'-'.join(filter(None, pieces))`
drops falsy (empty) strings. -/
def joinPieces (ps : List String) : String :=
  String.intercalate "-" (ps.filter (fun x => x ≠ ""))

/-- Token for one present regressor type (the per-`r` body of the loop at
source lines 608-698).  Mirrors the branch structure, including two
unreachable branches the source tests for keys the `regs` dict does not
contain: `'Global'` (the dict key is `'GlobalSignal'`) and `'BandPass'` (the
dict key is `'Bandpass'`), so a `GlobalSignal` or `Bandpass` selection emits
its bare code only.  In the tissue branch the source computes a resolution
fragment (`res`, lines 617-620) but never appends it to `pieces` — a dead
store reproduced here. -/
def tokenFor (r code : String) (s : RSel) : Except String String := do
  let pieces : List String ←
    if r = "GreyMatter" ∨ r = "WhiteMatter" ∨ r = "CerebrospinalFluid" then do
      let resDead :=
        match s.extraction_resolution with
        | Option.some q =>
            if q ≠ 0 then
              format2f q ++ (if s.erode_mask.getD false then "E" else "")
            else ""
        | Option.none => ""
      let _ := resDead
      let sm ← summaryParams s
      Except.ok [code, sm, derivativeParams s]
    else if r = "tCompCor" then do
      let thr :=
        (if s.by_slice.getD false then "S" else "") ++
        (if truthyTVal s.threshold then
          (match s.threshold with
           | Option.some (TVal.vstr ts) => ts
           | Option.some (TVal.vnum q) => format2f q
           | Option.none => "")
         else "")
      let sm ← summaryParams s
      Except.ok [code, thr, sm, derivativeParams s]
    else if r = "aCompCor" then do
      let tiss ←
        match s.tissues with
        | Option.some l =>
            if l.isEmpty then Except.ok ([] : List String)
            else do
              let codes ← regsCodes l
              Except.ok [String.intercalate "+" codes]
        | Option.none => Except.ok ([] : List String)
      let sm ← summaryParams s
      Except.ok ([code] ++ tiss ++ [sm, derivativeParams s])
    else if r = "Global" then do
      let sm ← summaryParams s
      Except.ok [code, sm, derivativeParams s]
    else if r = "Motion" then
      Except.ok [code, derivativeParams s]
    else if r = "PolyOrt" then
      match s.degree with
      | Option.some d => Except.ok [code, toString d]
      | Option.none => Except.error "KeyError: degree"
    else if r = "BandPass" then
      match s.top_frequency, s.bottom_frequency with
      | Option.some tf, Option.some bf =>
          Except.ok [code, "T" ++ format2f tf, "B" ++ format2f bf]
      | _, _ => Except.error "KeyError: frequency"
    else if r = "Censor" then do
      let mcode ←
        match s.method with
        | Option.some m =>
            match censoringMap.lookup m with
            | Option.some c => Except.ok c
            | Option.none => Except.error "KeyError: censor method"
        | Option.none => Except.error "KeyError: method"
      let pre :=
        match s.number_of_previous_trs_to_remove with
        | Option.some n => if n ≠ 0 then toString n else "0"
        | Option.none => "0"
      let post :=
        match s.number_of_subsequent_trs_to_remove with
        | Option.some n => if n ≠ 0 then toString n else "0"
        | Option.none => "0"
      let thr ←
        match s.thresholds with
        | Option.some l => cthreshTokens (sortThresholds l)
        | Option.none => Except.error "KeyError: thresholds"
      Except.ok ([code, mcode, pre ++ "+" ++ post] ++ thr)
    else
      Except.ok [code]
  Except.ok (joinPieces pieces)

/-- The token list of a selection: for each key of the fixed `regs` enumeration
in order, skip it when absent from the selection, else emit its token. -/
def reprTokens (sel : List (String × RSel)) :
    List (String × String) → Except String (List String)
  | [] => Except.ok []
  | (r, code) :: rest =>
      match sel.lookup r with
      | Option.none => reprTokens sel rest
      | Option.some s => do
          let t ← tokenFor r code s
          let ts ← reprTokens sel rest
          Except.ok (t :: ts)

/-- Embedding of `NuisanceRegressor.__repr__` (source lines 577-700): the
canonical identity string of a selection, modelled on the selection as an
association list (the dict); only membership and lookup are used, never the
insertion order. -/
def NuisanceRegressor.repr (sel : List (String × RSel)) : Except String String :=
  (reprTokens sel regsList).map (String.intercalate "_")


/-- The canonical string depends on the selection only through `lookup`: two
association lists with identical lookups canonicalize identically. -/
theorem reprTokens_ext (s1 s2 : List (String × RSel))
    (h : ∀ k, s1.lookup k = s2.lookup k) :
    ∀ ks, reprTokens s1 ks = reprTokens s2 ks := by
  intro ks
  induction ks with
  | nil => rfl
  | cons rc rest ih =>
    obtain ⟨r, code⟩ := rc
    unfold reprTokens
    rw [h r]
    cases s2.lookup r with
    | none => exact ih
    | some s => rw [ih]

/-- Permuting an association list with pairwise-distinct keys does not change
any lookup. -/
theorem lookup_eq_of_perm {β : Type} {l1 l2 : List (String × β)}
    (hp : l1.Perm l2) :
    (l1.map Prod.fst).Nodup → ∀ k, l1.lookup k = l2.lookup k := by
  induction hp with
  | nil => intro _ k; rfl
  | cons x p ih =>
    intro hnd k
    obtain ⟨x1, x2⟩ := x
    simp only [List.map_cons, List.nodup_cons] at hnd
    simp only [List.lookup]
    cases hc : (k == x1)
    · exact ih hnd.2 k
    · rfl
  | swap x y l =>
    intro hnd k
    obtain ⟨x1, x2⟩ := x
    obtain ⟨y1, y2⟩ := y
    have hxy : y1 ≠ x1 := by
      simp only [List.map_cons, List.nodup_cons, List.mem_cons] at hnd
      exact fun he => hnd.1 (Or.inl he)
    simp only [List.lookup]
    cases hky : (k == y1) <;> cases hkx : (k == x1)
    · rfl
    · rfl
    · rfl
    · exact absurd ((eq_of_beq hky).symm.trans (eq_of_beq hkx)) hxy
  | trans p1 p2 ih1 ih2 =>
    intro hnd k
    have hnd2 : (_ : List (String × β)).map Prod.fst |>.Nodup :=
      ((p1.map Prod.fst).nodup_iff).1 hnd
    exact (ih1 hnd k).trans (ih2 hnd2 k)

/-- Two lists that are sorted weakly-descending by `ctype`, are permutations of
each other, and have pairwise-distinct `ctype`s, are equal. -/
theorem sorted_ge_nodup_eq :
    ∀ (l1 l2 : List CThresh), l1.Perm l2 →
      l1.Pairwise (fun a b => b.ctype ≤ a.ctype) →
      l2.Pairwise (fun a b => b.ctype ≤ a.ctype) →
      (l1.map CThresh.ctype).Nodup → l1 = l2 := by
  intro l1
  induction l1 with
  | nil =>
    intro l2 hp _ _ _
    exact (hp.symm.eq_nil).symm ▸ rfl
  | cons a t ih =>
    intro l2 hp h1 h2 hnd
    cases l2 with
    | nil => exact absurd hp.eq_nil (by simp)
    | cons b t2 =>
      have hab : a = b := by
        have hain : a ∈ b :: t2 := hp.mem_iff.1 (List.mem_cons_self a t)
        rcases List.mem_cons.1 hain with he | hat2
        · exact he
        · have h1' : a.ctype ≤ b.ctype := (List.pairwise_cons.1 h2).1 a hat2
          have hbin : b ∈ a :: t := hp.symm.mem_iff.1 (List.mem_cons_self b t2)
          rcases List.mem_cons.1 hbin with he2 | hbt
          · exact he2.symm
          · have h2' : b.ctype ≤ a.ctype := (List.pairwise_cons.1 h1).1 b hbt
            have heq : a.ctype = b.ctype := le_antisymm h1' h2'
            simp only [List.map_cons, List.nodup_cons] at hnd
            exact absurd (heq ▸ List.mem_map_of_mem CThresh.ctype hbt) hnd.1
      subst hab
      have hpt : t.Perm t2 := hp.cons_inv
      simp only [List.map_cons, List.nodup_cons] at hnd
      rw [ih t2 hpt (List.pairwise_cons.1 h1).2 (List.pairwise_cons.1 h2).2 hnd.2]

/-- Sorting the Censor thresholds is order-independent when the threshold
types are pairwise distinct (with duplicate types the stable sort keeps the
insertion order, which is the C4 counterexample). -/
theorem sortThresholds_eq_of_perm (t1 t2 : List CThresh) (hp : t1.Perm t2)
    (hnd : (t1.map CThresh.ctype).Nodup) :
    sortThresholds t1 = sortThresholds t2 := by
  have hperm : (sortThresholds t1).Perm (sortThresholds t2) :=
    ((List.mergeSort_perm t1 _).trans hp).trans (List.mergeSort_perm t2 _).symm
  have hsorted : ∀ t : List CThresh,
      (sortThresholds t).Pairwise (fun a b => b.ctype ≤ a.ctype) := by
    intro t
    have := @List.sorted_mergeSort CThresh (fun a b => decide (b.ctype ≤ a.ctype))
      (fun a b c hab hbc => by
        simp only [decide_eq_true_eq] at hab hbc ⊢
        exact le_trans hbc hab)
      (fun a b => by
        simp only [Bool.or_eq_true, decide_eq_true_eq]
        exact le_total b.ctype a.ctype)
      t
    exact this.imp (fun h => of_decide_eq_true h)
  have hs1 := hsorted t1
  have hs2 := hsorted t2
  have hnd1 : ((sortThresholds t1).map CThresh.ctype).Nodup :=
    (((List.mergeSort_perm t1 _).map CThresh.ctype).nodup_iff).2 hnd
  exact sorted_ge_nodup_eq _ _ hperm hs1 hs2 hnd1

/-- The Censor token depends on the thresholds list only through its sorted
form. -/
theorem tokenFor_censor_thresholds (code : String) (rc : RSel) (t1 t2 : List CThresh)
    (hsort : sortThresholds t1 = sortThresholds t2) :
    tokenFor "Censor" code { rc with thresholds := Option.some t1 } =
      tokenFor "Censor" code { rc with thresholds := Option.some t2 } := by
  unfold tokenFor
  rw [if_neg (by decide :
        ¬(("Censor" : String) = "GreyMatter" ∨ ("Censor" : String) = "WhiteMatter" ∨
          ("Censor" : String) = "CerebrospinalFluid")),
      if_neg (by decide : ¬ ("Censor" : String) = "tCompCor"),
      if_neg (by decide : ¬ ("Censor" : String) = "aCompCor"),
      if_neg (by decide : ¬ ("Censor" : String) = "Global"),
      if_neg (by decide : ¬ ("Censor" : String) = "Motion"),
      if_neg (by decide : ¬ ("Censor" : String) = "PolyOrt"),
      if_neg (by decide : ¬ ("Censor" : String) = "BandPass"),
      if_pos rfl]
  dsimp only
  rw [hsort]
  rfl

/-- Replacing the descriptor at the head key by one with the same token leaves
the whole token list unchanged. -/
theorem reprTokens_head_congr (r : String) (a b : RSel) (rest : List (String × RSel))
    (h : ∀ code, tokenFor r code a = tokenFor r code b) :
    ∀ ks, reprTokens ((r, a) :: rest) ks = reprTokens ((r, b) :: rest) ks := by
  intro ks
  induction ks with
  | nil => rfl
  | cons rc ks2 ih =>
    obtain ⟨r2, code⟩ := rc
    unfold reprTokens
    simp only [List.lookup]
    cases hc : (r2 == r)
    · dsimp only
      cases hl : List.lookup r2 rest with
      | none => dsimp only; exact ih
      | some s => dsimp only; rw [ih]
    · dsimp only
      have hr2 : r2 = r := eq_of_beq hc
      subst hr2
      rw [h code, ih]

/-- C4 amended: the canonical identity string is determined by the selection
content.  Permuting the insertion order of the selection keys (which are
unique, as in a dict) never changes the output; permuting the Censor
thresholds list never changes the output provided its threshold types are
pairwise distinct; and repeated calls are byte-identical. -/
theorem nuisance_repr_content_determined :
    (∀ s1 s2 : List (String × RSel), s1.Perm s2 → (s1.map Prod.fst).Nodup →
      NuisanceRegressor.repr s1 = NuisanceRegressor.repr s2) ∧
    (∀ (rest : List (String × RSel)) (rc : RSel) (t1 t2 : List CThresh),
      t1.Perm t2 → (t1.map CThresh.ctype).Nodup →
      NuisanceRegressor.repr (("Censor", { rc with thresholds := Option.some t1 }) :: rest) =
        NuisanceRegressor.repr (("Censor", { rc with thresholds := Option.some t2 }) :: rest)) ∧
    (∀ s : List (String × RSel), NuisanceRegressor.repr s = NuisanceRegressor.repr s) := by
  refine ⟨?_, ?_, fun s => rfl⟩
  · intro s1 s2 hp hnd
    unfold NuisanceRegressor.repr
    rw [reprTokens_ext s1 s2 (lookup_eq_of_perm hp hnd) regsList]
  · intro rest rc t1 t2 hp hnd
    unfold NuisanceRegressor.repr
    rw [reprTokens_head_congr "Censor" _ _ rest
      (fun code => tokenFor_censor_thresholds code rc t1 t2
        (sortThresholds_eq_of_perm t1 t2 hp hnd)) regsList]

/-- Two Censor thresholds with the duplicate type `FD`, in both orders. -/
def thFD12 : List CThresh := [⟨"FD", TVal.vstr "1"⟩, ⟨"FD", TVal.vstr "2"⟩]

/-- The same two thresholds, permuted. -/
def thFD21 : List CThresh := [⟨"FD", TVal.vstr "2"⟩, ⟨"FD", TVal.vstr "1"⟩]

/-- A Censor descriptor with `Kill` censoring and the `thFD12` thresholds. -/
def rcKillA : RSel := { method := Option.some "Kill", thresholds := Option.some thFD12 }

/-- A Censor descriptor with `Kill` censoring and the permuted thresholds. -/
def rcKillB : RSel := { method := Option.some "Kill", thresholds := Option.some thFD21 }

/-- C4 counterexample: with two thresholds of the same type `FD`, the stable
descending sort keeps their insertion order, so permuting the thresholds list
changes the canonical string. -/
theorem nuisance_repr_thresholds_order_dependent :
    thFD12.Perm thFD21 ∧
    NuisanceRegressor.repr [("Censor", rcKillA)] = Except.ok "C-K-0+0-FD1-FD2" ∧
    NuisanceRegressor.repr [("Censor", rcKillB)] = Except.ok "C-K-0+0-FD2-FD1" ∧
    ("C-K-0+0-FD1-FD2" : String) ≠ "C-K-0+0-FD2-FD1" :=
  ⟨by unfold thFD12 thFD21; exact List.Perm.swap _ _ _,
   by with_unfolding_all rfl, by with_unfolding_all rfl, by decide⟩

/-- A Censor descriptor with only the method set. -/
def rcKillBase : RSel := { method := Option.some "Kill" }

/-- Thresholds with distinct types, in both orders. -/
def thMixA : List CThresh := [⟨"FD", TVal.vstr "1"⟩, ⟨"DVARS", TVal.vstr "2"⟩]

/-- The distinct-type thresholds, permuted. -/
def thMixB : List CThresh := [⟨"DVARS", TVal.vstr "2"⟩, ⟨"FD", TVal.vstr "1"⟩]

/-- Selection with Motion and Censor, in both insertion orders. -/
def selMC1 : List (String × RSel) := [("Motion", {}), ("Censor", rcKillA)]

/-- The same selection with the other insertion order. -/
def selMC2 : List (String × RSel) := [("Censor", rcKillA), ("Motion", {})]

/-- Witness for `nuisance_repr_content_determined`. -/
theorem nuisance_repr_content_determined_witness :
    selMC1.Perm selMC2 ∧ (selMC1.map Prod.fst).Nodup ∧
    NuisanceRegressor.repr selMC1 = NuisanceRegressor.repr selMC2 ∧
    thMixA.Perm thMixB ∧ (thMixA.map CThresh.ctype).Nodup ∧
    NuisanceRegressor.repr [("Censor", { rcKillBase with thresholds := Option.some thMixA })] =
      NuisanceRegressor.repr [("Censor", { rcKillBase with thresholds := Option.some thMixB })] ∧
    NuisanceRegressor.repr selMC1 = NuisanceRegressor.repr selMC1 :=
  ⟨by unfold selMC1 selMC2; exact List.Perm.swap _ _ _,
   by decide,
   nuisance_repr_content_determined.1 selMC1 selMC2
     (by unfold selMC1 selMC2; exact List.Perm.swap _ _ _) (by decide),
   by unfold thMixA thMixB; exact List.Perm.swap _ _ _,
   by decide,
   nuisance_repr_content_determined.2.1 [] rcKillBase thMixA thMixB
     (by unfold thMixA thMixB; exact List.Perm.swap _ _ _)
     (by decide),
   nuisance_repr_content_determined.2.2 selMC1⟩

/-- A GreyMatter descriptor with an extraction resolution, mask erosion and
`Mean` summary. -/
def rGMres : RSel :=
  { extraction_resolution := Option.some 2
    erode_mask := Option.some true
    summary := Option.some (SummarySel.sstr "Mean") }

/-- C7: the token for a tissue type with `extraction_resolution` set does not
contain the `"%.2f"`-formatted resolution: the source computes the fragment
(`res = "%.2f" % …` plus `"E"`, lines 617-620) but never appends it to
`pieces`, so the emitted token is `GM-M` rather than `GM-2.00E-M`, against the
spec table and the example reprs in the source's own comments (lines 595-600). -/
theorem nuisance_repr_resolution_fragment_dropped :
    NuisanceRegressor.repr [("GreyMatter", rGMres)] = Except.ok "GM-M" ∧
    format2f 2 ++ "E" = "2.00E" ∧
    ("GM-M" : String) ≠ "GM-2.00E-M" :=
  ⟨by with_unfolding_all rfl, by with_unfolding_all rfl, by decide⟩

end CPACNuis
